import Mathlib

/-!
Shallow embedding of the sqlx-db-cli schema-introspection and type-mapping
pipeline (src/lib.rs, src/mysql.rs, src/postgres.rs, src/sqlite.rs), together
with theorems settling the behavioural claims about it.

Conventions of the embedding:
* Rust `Option<T>` becomes `Option T`; `String` becomes `String`.
* A Rust conversion that can panic (`unwrap`) is modelled as a function into
  `Option`, returning `none` exactly on the panicking inputs.
* The row sets returned by catalog queries are modelled by filtering an
  explicit list of raw catalog rows with the predicate denoted by the WHERE
  clause the code builds.
* `std::collections::HashMap` is modelled as an association list with
  replace-or-append insertion; its (unspecified, per-process random)
  iteration order is abstracted as an explicit permutation parameter.
-/

namespace SqlxDbCli

/-- Model of Rust `str::contains(pat)`: substring containment. -/
def strContains (s pat : String) : Bool := decide (pat.data <:+: s.data)

/-- Model of Rust `str::to_uppercase`, character by character (all native
    type spellings involved are ASCII). -/
def toUpperStr (s : String) : String := String.mk (s.data.map Char.toUpper)

/-- Model of Rust `str::contains(|c| ...)`: some character satisfies the
    predicate. -/
def anyChar (s : String) (p : Char → Bool) : Bool := s.data.any p

/-- lib.rs `KEYWORDS`: the fixed Rust 1.70 keyword list. -/
def KEYWORDS : List String :=
  ["as", "async", "await", "break", "const", "continue", "crate", "dyn",
   "else", "enum", "extern", "false", "fn", "for", "if", "impl", "in",
   "let", "loop", "match", "mod", "move", "mut", "pub", "ref", "return",
   "Self", "self", "static", "struct", "super", "trait", "true", "type",
   "union", "unsafe", "use", "where", "while", "abstract", "become", "box",
   "do", "final", "macro", "override", "priv", "try", "typeof", "unsized",
   "virtual", "yield"]

/-- lib.rs `multi_world`: is the name composed of several words,
    i.e. does it contain an underscore or a hyphen. -/
def multi_world (name : String) : Bool :=
  anyChar name (fun c => c == '_' || c == '-')

/-- lib.rs `column_keywords`: if the column name is a Rust keyword,
    prefix it with `r#`, otherwise return it unchanged. -/
def column_keywords (name : String) : String :=
  if name ∈ KEYWORDS then "r#" ++ name else name

/-- lib.rs `Table`: the normalized table record (fields default to `""`,
    matching `#[derive(Default)]` with `String` fields). -/
structure Table where
  schema : String := ""
  name : String := ""
  comment : String := ""
deriving DecidableEq

/-- lib.rs `Column`: the normalized, dialect-neutral column record
    (all fields `Option`, defaulting to `None`). -/
structure Column where
  schema : Option String := none
  table_name : Option String := none
  name : Option String := none
  default : Option String := none
  max_length : Option Int := none
  is_nullable : Option String := none
  column_type : Option String := none
  comment : Option String := none
  field_type : Option String := none
  multi_world : Option Bool := none
deriving DecidableEq

/-- mysql.rs `mysql_to_rust`: the MySQL native-type to Rust-type table. -/
def mysql_to_rust (ty : String) : String :=
  match toUpperStr ty with
  | "TINYINT(1)" | "BOOLEAN" => "bool"
  | "TINYINT" => "i8"
  | "TINYINT UNSIGNED" | "BIT" => "u8"
  | "SMALLINT" => "i16"
  | "SMALLINT UNSIGNED" => "u16"
  | "INT" | "MEDIUMINT" => "i32"
  | "INT UNSIGNED" | "MEDIUMINT UNSIGNED" => "u32"
  | "BIGINT" => "i64"
  | "BIGINT UNSIGNED" => "u64"
  | "FLOAT" => "f32"
  | "DOUBLE" | "NUMERIC" => "f64"
  | "VARBINARY" | "BINARY" | "BLOB" => "Vec<u8>"
  | "YEAR" => "time::Date"
  | "DATE" => "time::Date"
  | "TIME" => "time::Time"
  | "DATETIME" => "time::PrimitiveDateTime"
  | "TIMESTAMP" => "time::offsetDateTime"
  | "DECIMAL" => "bigdecimal::BigDecimal"
  | "JSON" => "serde_json:JsonValue"
  | _ => "String"

/-- The exact match keys of `mysql_to_rust` (everything before the wildcard). -/
def mysqlMatchKeys : List String :=
  ["TINYINT(1)", "BOOLEAN", "TINYINT", "TINYINT UNSIGNED", "BIT",
   "SMALLINT", "SMALLINT UNSIGNED", "INT", "MEDIUMINT", "INT UNSIGNED",
   "MEDIUMINT UNSIGNED", "BIGINT", "BIGINT UNSIGNED", "FLOAT", "DOUBLE",
   "NUMERIC", "VARBINARY", "BINARY", "BLOB", "YEAR", "DATE", "TIME",
   "DATETIME", "TIMESTAMP", "DECIMAL", "JSON"]

/-- postgres.rs `pg_to_rust`: the Postgres native-type to Rust-type table. -/
def pg_to_rust (ty : String) : String :=
  match toUpperStr ty with
  | "BOOL" => "bool"
  | "CHAR" => "i8"
  | "SMALLINT" | "SMALLSERIAL" | "INT2" => "i16"
  | "INT" | "SERIAL" | "INT4" => "i32"
  | "BIGINT" | "BIGSERIAL" | "INT8" => "i64"
  | "REAL" | "FLOAT4" => "f32"
  | "DOUBLE PRECISION" | "FLOAT8" => "f64"
  | "BYTEA" => "Vec<u8>"
  | "VOID" => "()"
  | "INTERVAL" => "sqlx_postgres::types::PgInterval"
  | "INT8RANGE" | "INT4RANGE" | "TSRANGE" | "TSTZRANGE" | "DATERANGE"
  | "NUMRANGE" => "sqlx_postgres::types::PgRange<T> "
  | "MONEY" => "sqlx_postgres::types::PgMoney"
  | "LTREE" => "sqlx_postgres::types::PgLTree"
  | "LQUERY" => "sqlx_postgres::types::PgLQuery"
  | "YEAR" => "time::Date"
  | "DATE" => "time::Date"
  | "TIME" => "time::Time"
  | "TIMESTAMP" => "time::PrimitiveDateTime"
  | "TIMESTAMPTZ" => "time::OffsetDateTime"
  | "TIMETZ" => "sqlx_postgres::types::PgTimeTz"
  | "NUMERIC" => "bigdecimal::BigDecimal"
  | "JSON" | "JSONB" => "serde_json:JsonValue"
  | "UUID" => "uuid::Uuid"
  | "INET" | "CIDR" => "std::net::IpAddr"
  | "MACADDR" => "mac_address::MacAddress"
  | "BIT" | "VARBIT" => "bit_vec::BitVec"
  | _ => "String"

/-- The exact match keys of `pg_to_rust` (everything before the wildcard). -/
def pgMatchKeys : List String :=
  ["BOOL", "CHAR", "SMALLINT", "SMALLSERIAL", "INT2", "INT", "SERIAL",
   "INT4", "BIGINT", "BIGSERIAL", "INT8", "REAL", "FLOAT4",
   "DOUBLE PRECISION", "FLOAT8", "BYTEA", "VOID", "INTERVAL", "INT8RANGE",
   "INT4RANGE", "TSRANGE", "TSTZRANGE", "DATERANGE", "NUMRANGE", "MONEY",
   "LTREE", "LQUERY", "YEAR", "DATE", "TIME", "TIMESTAMP", "TIMESTAMPTZ",
   "TIMETZ", "NUMERIC", "JSON", "JSONB", "UUID", "INET", "CIDR", "MACADDR",
   "BIT", "VARBIT"]

/-- sqlite.rs `sqlite_to_rust`: the SQLite native-type to Rust-type table. -/
def sqlite_to_rust (ty : String) : String :=
  match toUpperStr ty with
  | "BOOLEAN" => "bool"
  | "INTEGER" => "i32"
  | "BIGINT" | "INT8" => "i64"
  | "REAL" => "f64"
  | "BLOB" => "Vec<u8>"
  | "DATE" => "time::Date"
  | "TIME" => "time::Time"
  | "DATETIME" => "time::OffsetDateTime"
  | _ => "String"

/-- The exact match keys of `sqlite_to_rust` (everything before the wildcard). -/
def sqliteMatchKeys : List String :=
  ["BOOLEAN", "INTEGER", "BIGINT", "INT8", "REAL", "BLOB", "DATE", "TIME",
   "DATETIME"]

/-- mysql.rs `Table`: one raw row of `information_schema.TABLES`
    (the `create_time`/`update_time`/`check_time` fields are commented out
    in the source and are omitted here as well). -/
structure MysqlTable where
  table_catalog : Option String := none
  table_schema : Option String := none
  table_name : Option String := none
  table_type : Option String := none
  engine : Option String := none
  version : Option Int := none
  row_format : Option String := none
  table_rows : Option Nat := none
  avg_row_length : Option Nat := none
  data_length : Option Nat := none
  max_data_length : Option Nat := none
  index_length : Option Nat := none
  data_free : Option Nat := none
  auto_increment : Option Nat := none
  table_collation : Option String := none
  checksum : Option Int := none
  create_options : Option String := none
  table_comment : Option String := none
deriving DecidableEq

/-- mysql.rs `TableColumn`: one raw row of `information_schema.COLUMNS`. -/
structure MysqlTableColumn where
  table_catalog : Option String := none
  table_schema : Option String := none
  table_name : Option String := none
  column_name : Option String := none
  ordinal_position : Option Nat := none
  column_default : Option String := none
  is_nullable : Option String := none
  data_type : Option String := none
  character_maximum_length : Option Int := none
  character_octet_length : Option Int := none
  numeric_precision : Option Nat := none
  numeric_scale : Option Nat := none
  datetime_precision : Option Nat := none
  character_set_name : Option String := none
  collation_name : Option String := none
  column_type : Option String := none
  column_key : Option String := none
  extra : Option String := none
  privileges : Option String := none
  column_comment : Option String := none
  generation_expression : Option String := none
  srs_id : Option Nat := none
deriving DecidableEq

/-- mysql.rs `impl From<TableColumn> for super::TableColumn`.
    The source calls `c.column_name.clone().unwrap()` twice, so the
    conversion panics when `column_name` is `None`; this is modelled by
    returning `none` on exactly that input. -/
def mysqlColumnFrom (c : MysqlTableColumn) : Option Column :=
  match c.column_name with
  | none => none
  | some cname =>
    let ty := mysql_to_rust (toUpperStr (c.column_type.getD ""))
    some
      { schema := c.table_schema
        table_name := c.table_name
        name := some (column_keywords cname)
        default := c.column_default
        is_nullable :=
          if strContains ty "Time" then some "Yes" else c.is_nullable
        column_type := c.column_type
        comment := c.column_comment
        field_type := some ty
        multi_world := some (anyChar cname (fun ch => ch == '_' || ch == '-'))
        max_length := c.character_maximum_length }

/-- postgres.rs `Table`: one raw row of the Postgres table query. -/
structure PgTable where
  table_catalog : String := ""
  table_schema : String := ""
  table_name : String := ""
deriving DecidableEq

/-- postgres.rs `TableColumn`: one raw row of the Postgres column query. -/
structure PgTableColumn where
  table_catalog : String := ""
  table_schema : String := ""
  table_name : String := ""
  column_name : String := ""
  ordinal_position : Int := 0
  column_default : Option String := none
  is_nullable : String := ""
  data_type : String := ""
  character_maximum_length : Option Int := none
deriving DecidableEq

/-- postgres.rs `impl From<Table> for super::Table` (the comment field is
    filled with the table name). -/
def pgTableFrom (t : PgTable) : Table :=
  { schema := t.table_schema
    name := t.table_name
    comment := t.table_name }

/-- postgres.rs `impl From<TableColumn> for super::Column`. -/
def pgColumnFrom (c : PgTableColumn) : Column :=
  let ty := pg_to_rust (toUpperStr c.data_type)
  { schema := some c.table_schema
    table_name := some c.table_name
    name := some (column_keywords c.column_name)
    default := c.column_default
    is_nullable :=
      if strContains ty "Time" then some "Yes" else some c.is_nullable
    column_type := some c.data_type
    comment := some ""
    field_type := some ty
    multi_world := some (anyChar c.column_name (fun ch => ch == '_' || ch == '-'))
    max_length :=
      match c.character_maximum_length with
      | some l => some l
      | none => some 50 }

/-- sqlite.rs `Table`: one raw row of `sqlite_master`. -/
structure SqliteTable where
  type : Option String := none
  name : Option String := none
  tbl_name : Option String := none
  rootpage : Option Int := none
  sql : Option String := none
deriving DecidableEq

/-- sqlite.rs `TableColumn`: one raw row of `pragma table_info`. -/
structure SqliteTableColumn where
  cid : Option Nat := none
  name : Option String := none
  type : Option String := none
  notnull : Option Nat := none
  dflt_value : Option String := none
  pk : Option Nat := none
deriving DecidableEq

/-- The digits group of `sqlite_type`, parsed as Rust
    `parse::<u16>().unwrap_or(0)`: the numeric value when it fits in `u16`,
    `0` on overflow. `ds` is a list of decimal digits. -/
def parseLenU16 (ds : List Char) : Nat :=
  let n := ds.foldl (fun acc c => acc * 10 + (c.toNat - 48)) 0
  if n ≤ 65535 then n else 0

/-- sqlite.rs `sqlite_type`: split a declared column type on the regex
    `^(.*)\((\d+)\)$` into base type and display length. With the greedy
    `.*`, a match exists iff the text ends in `)` and the characters between
    the last `(` and that final `)` are one or more digits; group 1 is
    everything before that `(`, group 2 the digits. No match returns the
    whole text with no length. -/
def sqlite_type (t : String) : String × Option Nat :=
  let cs := t.data
  match cs.getLast? with
  | some ch =>
    if ch = ')' then
      let r := cs.dropLast.reverse
      let ds := r.takeWhile Char.isDigit
      if ds.isEmpty then (t, none)
      else
        match r.drop ds.length with
        | '(' :: rest => (String.mk rest.reverse, some (parseLenU16 ds.reverse))
        | _ => (t, none)
    else (t, none)
  | none => (t, none)

/-- sqlite.rs `impl From<&TableColumn> for super::TableColumn`.
    The source calls `col.r#type.clone().unwrap()` and
    `col.name.clone().unwrap()`, so the conversion panics when either field
    is `None`; this is modelled by returning `none` on exactly those inputs.
    All fields not listed in the source's struct literal come from
    `..Default::default()` and stay `none`. -/
def sqliteColumnFromRef (col : SqliteTableColumn) : Option Column :=
  match col.type, col.name with
  | some tyText, some cname =>
    let ty := sqlite_type tyText
    some
      { name := some (column_keywords cname)
        default := col.dflt_value
        is_nullable :=
          match col.notnull with
          | some is_null =>
            if is_null = 1 then some "NotNull" else some "Null"
          | none => none
        column_type := col.type
        field_type := some (sqlite_to_rust ty.fst)
        multi_world := some (multi_world cname)
        max_length := some 255
        comment := col.name }
  | _, _ => none

/-- Comma-splitting helper (structural recursion over the characters);
    `acc` is the reversed current item. -/
def splitCommaAux : List Char → List Char → List String
  | [], acc => [String.mk acc.reverse]
  | c :: cs, acc =>
    if c = ',' then String.mk acc.reverse :: splitCommaAux cs []
    else splitCommaAux cs (c :: acc)

/-- Split a string on `,` (the comma-separated-list reading used by MySQL
    `FIND_IN_SET`). -/
def splitComma (s : String) : List String := splitCommaAux s.data []

/-- MySQL `FIND_IN_SET(needle, strlist)` used as a WHERE predicate: true iff
    `needle` equals one of the comma-separated items of `strlist`
    (comparison modelled as exact string equality). -/
def find_in_set (needle strlist : String) : Bool :=
  (splitComma strlist).contains needle

/-- mysql.rs `tables`: row-filter semantics of the query the adapter
    builds. `catalog` stands for the rows of `information_schema.TABLES`
    of the current database (the `TABLE_SCHEMA = (SELECT DATABASE())`
    restriction); a non-empty name filter appends
    `AND FIND_IN_SET(TABLE_NAME, '<comma-joined names>')`. -/
def mysqlTablesQuery (catalog : List MysqlTable) (table_names : List String) :
    List MysqlTable :=
  catalog.filter fun t =>
    table_names.isEmpty ||
      (match t.table_name with
       | some n => find_in_set n (String.intercalate "," table_names)
       | none => false)

/-- postgres.rs `tables`: row-filter semantics of
    `WHERE table_catalog = '<db>' and table_schema = 'public'` and, for a
    non-empty filter, `and table_name in ('<comma-joined names>')` — the
    joined names form one single IN-list element. Rows convert via
    `From<Table>`. -/
def pgTablesQuery (catalog : List PgTable) (database : String)
    (table_names : List String) : List Table :=
  (catalog.filter fun t =>
    t.table_catalog == database && t.table_schema == "public" &&
      (table_names.isEmpty ||
        t.table_name == String.intercalate "," table_names)).map pgTableFrom

/-- postgres.rs `columns`: the same WHERE-clause semantics as the table
    query, rows converted via `From<TableColumn>`. -/
def pgColumnsQuery (catalog : List PgTableColumn) (database : String)
    (table_names : List String) : List Column :=
  (catalog.filter fun c =>
    c.table_catalog == database && c.table_schema == "public" &&
      (table_names.isEmpty ||
        c.table_name == String.intercalate "," table_names)).map pgColumnFrom

/-- mysql.rs `tables`, lines 14-44: the raw base SQL string. -/
def mysqlTablesSqlBase : String :=
  "\n    SELECT\n        TABLE_CATALOG as table_catalog,\n        TABLE_SCHEMA as table_schema,\n        TABLE_NAME as table_name,\n        TABLE_TYPE as table_type,\n        `ENGINE` as engine,\n        VERSION as version,\n        ROW_FORMAT as row_format,\n        TABLE_ROWS as table_rows,\n        AVG_ROW_LENGTH as avg_row_length,\n        DATA_LENGTH as data_length,\n        MAX_DATA_LENGTH as max_data_length,\n        INDEX_LENGTH as index_length,\n        DATA_FREE as data_free,\n        AUTO_INCREMENT as auto_increment,\n        CREATE_TIME as create_time,\n        UPDATE_TIME as update_time,\n        CHECK_TIME as check_time,\n        TABLE_COLLATION as table_collation,\n        `CHECKSUM` as checksum,\n        CREATE_OPTIONS as create_options,\n        TABLE_COMMENT as table_comment\n    FROM\n        information_schema.`TABLES`\n    WHERE\n        TABLE_SCHEMA = (\n        SELECT\n            DATABASE ())\n        "

/-- mysql.rs `tables`: the SQL text the adapter sends (base, optional
    filter, then the ORDER BY suffix). -/
def mysqlTablesSql (table_names : List String) : String :=
  let sql := mysqlTablesSqlBase
  let sql :=
    if table_names.isEmpty then sql
    else sql ++ "AND FIND_IN_SET(TABLE_NAME, '"
      ++ String.intercalate "," table_names ++ "')"
  sql ++ "ORDER BY CREATE_TIME;"

/-- sqlite.rs `tables`, lines 15-20: the raw base SQL string. -/
def sqliteTablesSqlBase : String :=
  "\n    SELECT type, name, tbl_name, rootpage, sql\n    FROM sqlite_master\n    WHERE type = 'table'\n        "

/-- sqlite.rs `tables`: the SQL text the adapter sends. For a non-empty
    filter the source pushes `AND (1 = 2`, builds a per-name `OR` list whose
    value is discarded, pushes `AND FIND_IN_SET(TABLE_NAME, <joined>)`, and
    closes the paren; the whole query then gets the ORDER suffix. -/
def sqliteTablesSql (table_names : List String) : String :=
  let sql := sqliteTablesSqlBase
  let sql :=
    if table_names.isEmpty then sql
    else sql ++ "AND (1 = 2" ++ "AND FIND_IN_SET(TABLE_NAME, "
      ++ String.intercalate "," table_names ++ ")" ++ ")"
  sql ++ "ORDER by rootpage;"

/-- postgres.rs `tables`: the SQL text the adapter sends (no ORDER BY is
    ever appended). -/
def pgTablesSql (database : String) (table_names : List String) : String :=
  let sql :=
    "SELECT table_catalog, table_schema, table_name FROM information_schema.tables WHERE table_catalog = '"
      ++ database ++ "' and table_schema = 'public'"
  if table_names.isEmpty then sql
  else sql ++ "and table_name in ('"
    ++ String.intercalate "," table_names ++ "')"

/-- Association-list model of `HashMap` lookup: the first binding wins. -/
def assocFind (m : List (String × List Column)) (k : String) :
    Option (List Column) :=
  match m with
  | [] => none
  | p :: rest => if p.fst = k then some p.snd else assocFind rest k

/-- Association-list model of `HashMap::insert`: replace the binding when
    the key is present, append it otherwise. -/
def insertAssoc (m : List (String × List Column)) (k : String)
    (v : List Column) : List (String × List Column) :=
  match m with
  | [] => [(k, v)]
  | p :: rest => if p.fst = k then (k, v) :: rest else p :: insertAssoc rest k v

/-- lib.rs `Generator::generator`: the key set of `table_map`
    (`tables.into_iter().map(|t| (t.name, t)).collect()` into a `HashMap`,
    where a duplicate name overwrites) — the distinct table names. -/
def tableMapKeys (tables : List Table) : List String :=
  (tables.map fun t => t.name).dedup

/-- lib.rs `Generator::generator`, lines 249-263: `table_column_map`, the
    fold over the table map's keys that inserts, for each table name, the
    filtered subsequence of `tables_columns` whose `table_name` equals it. -/
def table_column_map (tables : List Table) (columns : List Column) :
    List (String × List Column) :=
  (tableMapKeys tables).foldl
    (fun m table_name =>
      insertAssoc m table_name
        (columns.filter fun tc => some table_name == tc.table_name))
    []

/-- lib.rs `Generator::generator`, lines 233-314, after introspection: the
    early exits, the printed notices and the sequence of files created.
    Filesystem writes and template rendering are abstracted as succeeding;
    every branch of the source returns `Ok(())`. `order` is the iteration
    order of the `table_map` `HashMap` — unspecified (per-process random
    seed) in Rust, so it is an explicit parameter here, constrained in the
    theorems to an arbitrary permutation of `tableMapKeys`. Returns
    `(printed messages, created files)`. -/
def generatorEmit (path : String) (tables : List Table)
    (columns : List Column) (order : List String) :
    List String × List String :=
  if tables.isEmpty then (["tables is empty"], [])
  else if columns.isEmpty then (["table columns is empty"], [])
  else
    (order.map (fun table_name =>
        "the " ++ path ++ table_name ++ ".rs has been generated")
       ++ ["the " ++ path ++ "mod.rs has been generated"],
     order.map (fun table_name => path ++ table_name ++ ".rs")
       ++ [path ++ "mod.rs"])

/-! Concrete inputs used by the witness and counterexample theorems. -/

/-- A raw MySQL DATETIME column row. -/
def demoMysqlDatetimeCol : MysqlTableColumn :=
  { column_name := some "created_at", column_type := some "DATETIME",
    is_nullable := some "NO" }

/-- The normalized column `demoMysqlDatetimeCol` converts to. -/
def demoMysqlDatetimeConverted : Column :=
  { name := some "created_at", is_nullable := some "Yes",
    column_type := some "DATETIME",
    field_type := some "time::PrimitiveDateTime", multi_world := some true }

/-- A raw Postgres TIMESTAMP column row reported as not-null. -/
def demoPgTimestampCol : PgTableColumn :=
  { data_type := "TIMESTAMP", is_nullable := "NO" }

/-- A raw SQLite `VARCHAR(50)` column row. -/
def demoSqliteCol : SqliteTableColumn :=
  { name := some "title", type := some "VARCHAR(50)", notnull := some 1 }

/-- The normalized column `demoSqliteCol` converts to. -/
def demoSqliteConverted : Column :=
  { name := some "title", is_nullable := some "NotNull",
    column_type := some "VARCHAR(50)", field_type := some "String",
    multi_world := some false, max_length := some 255,
    comment := some "title" }

/-- A five-table `public`-schema Postgres catalog. -/
def pgDemoCatalog : List PgTable :=
  [{ table_catalog := "test", table_schema := "public", table_name := "users" },
   { table_catalog := "test", table_schema := "public", table_name := "orders" },
   { table_catalog := "test", table_schema := "public", table_name := "products" },
   { table_catalog := "test", table_schema := "public", table_name := "carts" },
   { table_catalog := "test", table_schema := "public", table_name := "payments" }]

/-- A five-table MySQL catalog (current database). -/
def mysqlDemoCatalog : List MysqlTable :=
  [{ table_name := some "users" }, { table_name := some "orders" },
   { table_name := some "products" }, { table_name := some "carts" },
   { table_name := some "payments" }]

/-- Two normalized tables. -/
def demoTables : List Table := [{ name := "users" }, { name := "orders" }]

/-- Three normalized columns, each owned by one of `demoTables`. -/
def demoColumns : List Column :=
  [{ table_name := some "users", name := some "id" },
   { table_name := some "orders", name := some "id" },
   { table_name := some "users", name := some "email" }]

/-- A single orphan column whose `table_name` matches no table. -/
def demoOrphanColumns : List Column := [{ table_name := some "ghost" }]

/-- Two normalized tables named `a` and `b`. -/
def demoT2 : List Table := [{ name := "a" }, { name := "b" }]

/-- One normalized column owned by table `a`. -/
def demoC2 : List Column := [{ table_name := some "a" }]

/-! Helper lemmas. -/

/-- Any input whose uppercasing matches no explicit key of the MySQL table
    falls through to the wildcard. -/
lemma mysql_to_rust_fallback (ty : String)
    (h : toUpperStr ty ∉ mysqlMatchKeys) : mysql_to_rust ty = "String" := by
  unfold mysql_to_rust
  split <;> simp_all [mysqlMatchKeys]

set_option maxHeartbeats 1000000 in
/-- Any input whose uppercasing matches no explicit key of the Postgres
    table falls through to the wildcard. -/
lemma pg_to_rust_fallback (ty : String)
    (h : toUpperStr ty ∉ pgMatchKeys) : pg_to_rust ty = "String" := by
  unfold pg_to_rust
  split <;> first | rfl | simp_all [pgMatchKeys]

/-- Any input whose uppercasing matches no explicit key of the SQLite table
    falls through to the wildcard. -/
lemma sqlite_to_rust_fallback (ty : String)
    (h : toUpperStr ty ∉ sqliteMatchKeys) : sqlite_to_rust ty = "String" := by
  unfold sqlite_to_rust
  split <;> simp_all [sqliteMatchKeys]

/-- The MySQL mapping never returns the empty string. -/
lemma mysql_to_rust_ne_empty (ty : String) : mysql_to_rust ty ≠ "" := by
  unfold mysql_to_rust; split <;> simp

/-- The Postgres mapping never returns the empty string. -/
lemma pg_to_rust_ne_empty (ty : String) : pg_to_rust ty ≠ "" := by
  unfold pg_to_rust; split <;> simp

/-- The SQLite mapping never returns the empty string. -/
lemma sqlite_to_rust_ne_empty (ty : String) : sqlite_to_rust ty ≠ "" := by
  unfold sqlite_to_rust; split <;> simp

/-- No Rust keyword contains the `#` character. -/
lemma keyword_no_hash : ∀ k ∈ KEYWORDS, '#' ∉ k.data := by decide

/-- A string starting with the escape marker `r#` is never a keyword. -/
lemma rsharp_not_keyword (s : String) : ("r#" ++ s) ∉ KEYWORDS := by
  intro hmem
  apply keyword_no_hash _ hmem
  rw [String.data_append]
  simp

/-- Looking up a key after an association-list insert. -/
lemma assocFind_insertAssoc (m : List (String × List Column)) (k k₀ : String)
    (v : List Column) :
    assocFind (insertAssoc m k v) k₀ =
      if k₀ = k then some v else assocFind m k₀ := by
  induction m with
  | nil =>
    by_cases h : k₀ = k <;> simp [insertAssoc, assocFind, h, Ne.symm]
  | cons p rest ih =>
    by_cases hp : p.fst = k
    · by_cases h : k₀ = k
      · subst h; simp_all [insertAssoc, assocFind]
      · have h2 : ¬ k = k₀ := fun he => h he.symm
        simp_all [insertAssoc, assocFind]
    · by_cases h : k₀ = k <;> by_cases hpk : p.fst = k₀ <;>
        simp_all [insertAssoc, assocFind]

/-- Looking up a key in the map built by folding inserts over a key list:
    the inserted value when the key occurs, the initial map's answer
    otherwise. -/
lemma foldl_insert_lookup (K : List String) (f : String → List Column)
    (m₀ : List (String × List Column)) (k₀ : String) :
    assocFind (K.foldl (fun m k => insertAssoc m k (f k)) m₀) k₀ =
      if k₀ ∈ K then some (f k₀) else assocFind m₀ k₀ := by
  induction K generalizing m₀ with
  | nil => simp
  | cons a K ih =>
    simp only [List.foldl_cons, ih, List.mem_cons]
    by_cases h : k₀ ∈ K
    · simp [h]
    · by_cases ha : k₀ = a
      · subst ha; simp [h, assocFind_insertAssoc]
      · simp [h, ha, assocFind_insertAssoc]

/-- Inserting a key absent from the map appends the binding. -/
lemma insertAssoc_of_fresh (m : List (String × List Column)) (k : String)
    (v : List Column) (h : ∀ p ∈ m, p.fst ≠ k) :
    insertAssoc m k v = m ++ [(k, v)] := by
  induction m with
  | nil => rfl
  | cons p rest ih =>
    have hp : p.fst ≠ k := h p (List.mem_cons_self p rest)
    simp only [insertAssoc, hp, if_false]
    rw [ih (fun q hq => h q (List.mem_cons_of_mem p hq))]
    simp

/-- Folding inserts of distinct fresh keys materialises one binding per
    key, in key order. -/
lemma foldl_insert_entries (K : List String) (f : String → List Column) :
    ∀ m₀ : List (String × List Column), K.Nodup →
      (∀ p ∈ m₀, p.fst ∉ K) →
      K.foldl (fun m k => insertAssoc m k (f k)) m₀
        = m₀ ++ K.map (fun k => (k, f k)) := by
  induction K with
  | nil => intro m₀ _ _; simp
  | cons a K ih =>
    intro m₀ hK hfresh
    simp only [List.foldl_cons]
    rw [insertAssoc_of_fresh m₀ a (f a)
      (fun p hp => fun hk => hfresh p hp (hk ▸ List.mem_cons_self a K))]
    rw [ih (m₀ ++ [(a, f a)]) (List.Nodup.of_cons hK) ?fresh]
    · simp
    case fresh =>
      intro p hp
      rcases List.mem_append.mp hp with hm | hm
      · exact fun hk => hfresh p hm (List.mem_cons_of_mem a hk)
      · simp only [List.mem_singleton] at hm
        subst hm
        exact (List.nodup_cons.mp hK).1

/-- Sums of pointwise-added maps split. -/
lemma sum_map_add (l : List String) (f g : String → Nat) :
    (l.map fun x => f x + g x).sum = (l.map f).sum + (l.map g).sum := by
  induction l with
  | nil => simp
  | cons a l ih => simp [ih]; omega

/-- The indicator sum of an absent key is zero. -/
lemma sum_indicator_zero (K : List String) (k₀ : String) (h : k₀ ∉ K) :
    (K.map fun k => if k = k₀ then 1 else 0).sum = 0 := by
  induction K with
  | nil => simp
  | cons a K ih =>
    have ha : a ≠ k₀ := fun hak => h (hak ▸ List.mem_cons_self a K)
    simp [ha, ih (fun hk => h (List.mem_cons_of_mem a hk))]

/-- The indicator sum of a key occurring in a duplicate-free list is one. -/
lemma sum_indicator_one (K : List String) (k₀ : String) (hK : K.Nodup)
    (hk : k₀ ∈ K) :
    (K.map fun k => if k = k₀ then 1 else 0).sum = 1 := by
  induction K with
  | nil => cases hk
  | cons a K ih =>
    rcases List.mem_cons.mp hk with h | h
    · subst h
      simp [sum_indicator_zero K k₀ (List.nodup_cons.mp hK).1]
    · have ha : a ≠ k₀ := fun hak =>
        absurd (hak ▸ h) (List.nodup_cons.mp hK).1
      simp [ha, ih (List.Nodup.of_cons hK) h]

/-- When every column belongs to some key of a duplicate-free key list,
    the per-key filtered lengths sum to the total column count. -/
lemma sum_filter_length (K : List String) (C : List Column) (hK : K.Nodup)
    (hcov : ∀ c ∈ C, ∃ k ∈ K, c.table_name = some k) :
    (K.map fun k =>
      (C.filter fun tc => some k == tc.table_name).length).sum
      = C.length := by
  induction C with
  | nil => simp
  | cons c C ih =>
    obtain ⟨k₀, hk₀K, hk₀⟩ := hcov c (List.mem_cons_self c C)
    have hsplit : ∀ k : String,
        ((c :: C).filter fun tc => some k == tc.table_name).length
          = (if k = k₀ then 1 else 0)
            + (C.filter fun tc => some k == tc.table_name).length := by
      intro k
      rw [List.filter_cons]
      by_cases h : k = k₀
      · simp [h, hk₀]
        omega
      · simp [h, hk₀]
    simp only [hsplit]
    rw [sum_map_add, sum_indicator_one K k₀ hK hk₀K,
      ih (fun d hd => hcov d (List.mem_cons_of_mem c hd))]
    simp [List.length_cons]
    omega

/-- The group lookup of `table_column_map`, in closed form. -/
lemma table_column_map_lookup (T : List Table) (C : List Column)
    (k : String) :
    assocFind (table_column_map T C) k =
      if k ∈ tableMapKeys T
      then some (C.filter fun tc => some k == tc.table_name)
      else none := by
  unfold table_column_map
  rw [foldl_insert_lookup]
  simp [assocFind]

/-- The table map's key set is the set of table names. -/
lemma mem_tableMapKeys (T : List Table) (k : String) :
    k ∈ tableMapKeys T ↔ k ∈ T.map fun t => t.name := by
  unfold tableMapKeys
  exact List.mem_dedup

/-! The claims. -/

/-- C1 (counterexample): a MySQL catalog column of native type `DATE` maps
    to the temporal `field_type` `time::Date`, yet its normalized
    `is_nullable` keeps the catalog value `"NO"` instead of being forced to
    `"Yes"` — the override tests `field_type.contains("Time")`, which
    `time::Date` fails. -/
theorem temporal_date_column_keeps_catalog_nullability :
    (mysqlColumnFrom
      { column_name := some "d", column_type := some "DATE",
        is_nullable := some "NO" }).map (fun col => col.field_type)
      = some (some "time::Date") ∧
    "time::Date" ∈ ["time::Date", "time::Time", "time::PrimitiveDateTime",
      "time::OffsetDateTime"] ∧
    (mysqlColumnFrom
      { column_name := some "d", column_type := some "DATE",
        is_nullable := some "NO" }).map (fun col => col.is_nullable)
      = some (some "NO") ∧ some "NO" ≠ some ("Yes" : String) := by decide

/-- C1 (amended): in the MySQL and Postgres adapters, any column whose
    mapped `field_type` contains the substring `"Time"` (which covers
    `time::Time`, `time::PrimitiveDateTime` and the timestamp mappings but
    not `time::Date`) has `is_nullable` forced to `some "Yes"` regardless of
    the raw catalog value. -/
theorem nullable_override_on_Time_substring :
    (∀ c col ty, mysqlColumnFrom c = some col → col.field_type = some ty →
      strContains ty "Time" = true → col.is_nullable = some "Yes") ∧
    (∀ c ty, (pgColumnFrom c).field_type = some ty →
      strContains ty "Time" = true →
      (pgColumnFrom c).is_nullable = some "Yes") := by
  constructor
  · intro c col ty h hft hTime
    cases hcn : c.column_name with
    | none => simp [mysqlColumnFrom, hcn] at h
    | some cname =>
      simp only [mysqlColumnFrom, hcn, Option.some.injEq] at h
      subst h
      simp only [Option.some.injEq] at hft
      simp [hft, hTime]
  · intro c ty hft hTime
    simp only [pgColumnFrom, Option.some.injEq] at hft
    simp [pgColumnFrom, hft, hTime]

/-- C1 (witness): a MySQL `DATETIME` column and a Postgres `TIMESTAMP`
    column reported not-null both come out with `is_nullable = some "Yes"`. -/
theorem nullable_override_on_Time_substring_witness :
    demoMysqlDatetimeConverted.is_nullable = some "Yes" ∧
    (pgColumnFrom demoPgTimestampCol).is_nullable = some "Yes" :=
  ⟨nullable_override_on_Time_substring.1 demoMysqlDatetimeCol
      demoMysqlDatetimeConverted "time::PrimitiveDateTime"
      (by decide) (by decide) (by decide),
   nullable_override_on_Time_substring.2 demoPgTimestampCol
      "time::PrimitiveDateTime" (by decide) (by decide)⟩

/-- C2: with the name filter `["users", "orders"]`, the Postgres table
    query the code builds (`table_name in ('users,orders')`, a single
    IN-list element holding the comma-joined names) returns no table from a
    five-table catalog containing `users` and `orders`; it would instead
    match a table literally named `users,orders`. The empty filter returns
    all five tables, and the MySQL adapter's `FIND_IN_SET` filter does
    select exactly the two named tables. -/
theorem pg_name_filter_matches_joined_literal :
    (pgTablesQuery pgDemoCatalog "test" ["users", "orders"]).map
      (fun t => t.name) = [] ∧
    (pgTablesQuery pgDemoCatalog "test" []).map (fun t => t.name)
      = ["users", "orders", "products", "carts", "payments"] ∧
    (pgTablesQuery
        [{ table_catalog := "test", table_schema := "public",
           table_name := "users,orders" }] "test" ["users", "orders"]).map
      (fun t => t.name) = ["users,orders"] ∧
    (mysqlTablesQuery mysqlDemoCatalog ["users", "orders"]).map
      (fun t => t.table_name) = [some "users", some "orders"] := by decide

/-- C3: the column-group map built by the normalizer has one entry exactly
    per distinct table name (tables without columns included, with the
    empty group); each group is the order-preserving filtered subsequence
    of the column list; an orphan column lands in no group; and under full
    coverage the keys are exactly the table names and the group sizes sum
    to the number of columns. -/
theorem column_grouping_spec (T : List Table) (C : List Column) :
    (∀ k, (assocFind (table_column_map T C) k).isSome
        ↔ k ∈ T.map fun t => t.name) ∧
    (∀ k, k ∈ tableMapKeys T →
      assocFind (table_column_map T C) k
        = some (C.filter fun tc => some k == tc.table_name)) ∧
    (∀ c ∈ C, (∀ t ∈ T, c.table_name ≠ some t.name) →
      ∀ k g, assocFind (table_column_map T C) k = some g → c ∉ g) ∧
    ((∀ c ∈ C, ∃ t ∈ T, c.table_name = some t.name) →
      ((table_column_map T C).map fun p => p.fst) = tableMapKeys T ∧
      ((table_column_map T C).map fun p => p.snd.length).sum = C.length) := by
  refine ⟨?_, ?_, ?_, ?_⟩
  · intro k
    rw [table_column_map_lookup, ← mem_tableMapKeys]
    by_cases h : k ∈ tableMapKeys T <;> simp [h]
  · intro k hk
    rw [table_column_map_lookup, if_pos hk]
  · intro c hc horph k g hfind
    rw [table_column_map_lookup] at hfind
    by_cases h : k ∈ tableMapKeys T
    · rw [if_pos h] at hfind
      obtain rfl : C.filter (fun tc => some k == tc.table_name) = g :=
        Option.some.injEq _ _ ▸ hfind
      intro hcg
      have htn : (some k == c.table_name) = true :=
        (List.mem_filter.mp hcg).2
      rw [beq_iff_eq] at htn
      obtain ⟨t, htT, hname⟩ :=
        (List.mem_map.mp ((mem_tableMapKeys T k).mp h))
      exact horph t htT (by rw [← htn, hname])
    · rw [if_neg h] at hfind
      cases hfind
  · intro hcov
    have hrepr : table_column_map T C
        = (tableMapKeys T).map
            (fun k => (k, C.filter fun tc => some k == tc.table_name)) := by
      unfold table_column_map
      rw [foldl_insert_entries (tableMapKeys T) _ [] (List.nodup_dedup _)
        (by simp)]
      simp
    constructor
    · rw [hrepr]
      rw [List.map_map]
      exact List.map_id (tableMapKeys T)
    · rw [hrepr]
      have hlen : ((tableMapKeys T).map
          (fun k => (k, C.filter fun tc => some k == tc.table_name))).map
            (fun p => p.snd.length)
          = (tableMapKeys T).map
              (fun k =>
                (C.filter fun tc => some k == tc.table_name).length) := by
        simp [List.map_map]
      rw [hlen]
      apply sum_filter_length _ _ (List.nodup_dedup _)
      intro c hc
      obtain ⟨t, htT, htn⟩ := hcov c hc
      exact ⟨t.name, (mem_tableMapKeys T t.name).mpr
        (List.mem_map.mpr ⟨t, htT, rfl⟩), htn⟩

/-- C3 (witness): on two tables and three covering columns, the `users`
    group is the filtered subsequence, the group sizes sum to three, and an
    orphan `ghost` column is in no group. -/
theorem column_grouping_spec_witness :
    assocFind (table_column_map demoTables demoColumns) "users"
      = some (demoColumns.filter fun tc => some "users" == tc.table_name) ∧
    ((table_column_map demoTables demoColumns).map
      fun p => p.snd.length).sum = demoColumns.length ∧
    { table_name := some "ghost" : Column } ∉ ([] : List Column) :=
  ⟨(column_grouping_spec demoTables demoColumns).2.1 "users" (by decide),
   ((column_grouping_spec demoTables demoColumns).2.2.2 (by decide)).2,
   (column_grouping_spec demoTables demoOrphanColumns).2.2.1
     { table_name := some "ghost" } (by decide) (by decide) "users" []
     (by decide)⟩

/-- C4: each dialect's type mapping is total, never returns the empty
    string, and maps every input that matches no explicit key of its table
    to the generic `"String"` fallback. -/
theorem type_tables_total_with_fallback (ty : String) :
    mysql_to_rust ty ≠ "" ∧ pg_to_rust ty ≠ "" ∧ sqlite_to_rust ty ≠ "" ∧
    (toUpperStr ty ∉ mysqlMatchKeys → mysql_to_rust ty = "String") ∧
    (toUpperStr ty ∉ pgMatchKeys → pg_to_rust ty = "String") ∧
    (toUpperStr ty ∉ sqliteMatchKeys → sqlite_to_rust ty = "String") :=
  ⟨mysql_to_rust_ne_empty ty, pg_to_rust_ne_empty ty,
   sqlite_to_rust_ne_empty ty, mysql_to_rust_fallback ty,
   pg_to_rust_fallback ty, sqlite_to_rust_fallback ty⟩

/-- C4 (witness): `GEOMETRY` is in none of the three tables and maps to
    `"String"` in all three dialects. -/
theorem type_tables_total_with_fallback_witness :
    mysql_to_rust "GEOMETRY" = "String" ∧ pg_to_rust "GEOMETRY" = "String" ∧
    sqlite_to_rust "GEOMETRY" = "String" :=
  ⟨(type_tables_total_with_fallback "GEOMETRY").2.2.2.1 (by decide),
   (type_tables_total_with_fallback "GEOMETRY").2.2.2.2.1 (by decide),
   (type_tables_total_with_fallback "GEOMETRY").2.2.2.2.2 (by decide)⟩

/-- C5: the code diverges from its own documented mapping tables: the MySQL
    table's doc comment promises `time::OffsetDateTime` for `TIMESTAMP` but
    the code returns `time::offsetDateTime` (lower-case `o`), and promises
    `serde_json::JsonValue` for `JSON` but the code returns
    `serde_json:JsonValue` (single colon); the Postgres `JSON`/`JSONB`
    arms have the same malformed path. The Postgres `TIMESTAMPTZ` arm does
    match its doc, and `BIT` maps per-dialect (u8 vs bit_vec::BitVec). -/
theorem mapping_table_doc_mismatch :
    mysql_to_rust "TIMESTAMP" = "time::offsetDateTime" ∧
    mysql_to_rust "TIMESTAMP" ≠ "time::OffsetDateTime" ∧
    mysql_to_rust "JSON" = "serde_json:JsonValue" ∧
    mysql_to_rust "JSON" ≠ "serde_json::JsonValue" ∧
    pg_to_rust "JSON" = "serde_json:JsonValue" ∧
    pg_to_rust "JSON" ≠ "serde_json::Value" ∧
    pg_to_rust "TIMESTAMPTZ" = "time::OffsetDateTime" ∧
    mysql_to_rust "BIT" = "u8" ∧ pg_to_rust "BIT" = "bit_vec::BitVec" := by
  decide

/-- C6 (counterexample): a SQLite column declared `VARCHAR(50)` is
    normalized with `max_length = some 255`, not the parsed length 50 (nor
    a default of 50): the adapter hardcodes 255. -/
theorem sqlite_varchar_length_not_carried :
    (sqliteColumnFromRef
      { name := some "title", type := some "VARCHAR(50)" }).map
      (fun col => col.max_length) = some (some 255) ∧
    some (255 : Int) ≠ some (50 : Int) := by decide

/-- C6 (amended): `sqlite_type` does split `VARCHAR(50)` into base
    `VARCHAR` and length 50 and leaves `INTEGER` unsplit, and the split
    base type is what is fed to the mapping table; but the conversion sets
    `max_length` to the constant 255 for every column, discarding the
    parsed length. -/
theorem sqlite_split_then_fixed_max_length :
    sqlite_type "VARCHAR(50)" = ("VARCHAR", some 50) ∧
    sqlite_type "INTEGER" = ("INTEGER", none) ∧
    (∀ col c, sqliteColumnFromRef col = some c → c.max_length = some 255) ∧
    (∀ col c tyText, col.type = some tyText →
      sqliteColumnFromRef col = some c →
      c.field_type = some (sqlite_to_rust (sqlite_type tyText).fst)) := by
  refine ⟨by decide, by decide, ?_, ?_⟩
  · intro col c h
    cases ht : col.type <;> cases hn : col.name <;>
      simp_all [sqliteColumnFromRef]
    subst h; rfl
  · intro col c tyText hty h
    cases hn : col.name with
    | none => simp [sqliteColumnFromRef, hn] at h
    | some cname =>
      simp only [sqliteColumnFromRef, hty, hn, Option.some.injEq] at h
      subst h
      rfl

/-- C6 (witness): the `VARCHAR(50)` demo column converts with
    `max_length = some 255` and `field_type` computed from the split base
    type. -/
theorem sqlite_split_then_fixed_max_length_witness :
    demoSqliteConverted.max_length = some 255 ∧
    demoSqliteConverted.field_type
      = some (sqlite_to_rust (sqlite_type "VARCHAR(50)").fst) :=
  ⟨sqlite_split_then_fixed_max_length.2.2.1 demoSqliteCol demoSqliteConverted
      (by decide),
   sqlite_split_then_fixed_max_length.2.2.2 demoSqliteCol demoSqliteConverted
      "VARCHAR(50)" (by decide) (by decide)⟩

/-- C7: `column_keywords` escapes exactly the case-sensitive members of the
    fixed keyword list by prefixing `r#`, leaves every other string
    unchanged, is idempotent, and never returns an unescaped keyword. -/
theorem escape_reserved_words_spec (name : String) :
    (name ∈ KEYWORDS → column_keywords name = "r#" ++ name) ∧
    (name ∉ KEYWORDS → column_keywords name = name) ∧
    column_keywords (column_keywords name) = column_keywords name ∧
    column_keywords name ∉ KEYWORDS := by
  by_cases h : name ∈ KEYWORDS
  · exact ⟨fun _ => by simp [column_keywords, h],
      fun h2 => absurd h h2,
      by simp [column_keywords, h, rsharp_not_keyword name],
      by simp [column_keywords, h, rsharp_not_keyword]⟩
  · exact ⟨fun h2 => absurd h2 h, fun _ => by simp [column_keywords, h],
      by simp [column_keywords, h], by simp [column_keywords, h]⟩

/-- C7 (witness): the keyword `type` is escaped, the non-keyword `title`
    is unchanged. -/
theorem escape_reserved_words_spec_witness :
    column_keywords "type" = "r#" ++ "type" ∧
    column_keywords "title" = "title" :=
  ⟨(escape_reserved_words_spec "type").1 (by decide),
   (escape_reserved_words_spec "title").2.1 (by decide)⟩

/-- C8: after introspection, an empty table list — or a non-empty table
    list with an empty column list — makes the generator return the
    informational message and perform zero file emissions (the source
    returns `Ok(())` in both branches before any filesystem call). -/
theorem empty_introspection_early_exit (path : String) (tables : List Table)
    (columns : List Column) (order : List String) :
    (tables = [] →
      generatorEmit path tables columns order = (["tables is empty"], [])) ∧
    (tables ≠ [] → columns = [] →
      generatorEmit path tables columns order
        = (["table columns is empty"], [])) := by
  constructor
  · intro h; subst h; rfl
  · intro ht hc; subst hc
    simp [generatorEmit, List.isEmpty_iff, ht]

/-- C8 (witness): table list `["users"]` with empty columns reports the
    empty condition and creates no file. -/
theorem empty_introspection_early_exit_witness :
    generatorEmit "target/models/" [{ name := "users" }] [] ["users"]
      = (["table columns is empty"], []) :=
  (empty_introspection_early_exit "target/models/" [{ name := "users" }] []
    ["users"]).2 (by decide) rfl

/-- C9 (counterexample): two valid `HashMap` iteration orders over the same
    two-table catalog — both permutations of the table map's keys — emit
    the model files in different sequences, so the emission sequence is not
    determined by the catalog alone. -/
theorem emission_order_depends_on_map_order :
    (["a", "b"] : List String).Perm (tableMapKeys demoT2) ∧
    (["b", "a"] : List String).Perm (tableMapKeys demoT2) ∧
    (generatorEmit "models/" demoT2 demoC2 ["a", "b"]).snd
      ≠ (generatorEmit "models/" demoT2 demoC2 ["b", "a"]).snd := by
  have hkeys : tableMapKeys demoT2 = ["a", "b"] := by decide
  refine ⟨by rw [hkeys], ?_, by decide⟩
  rw [hkeys]
  exact List.Perm.swap "a" "b" []

set_option maxRecDepth 8192 in
/-- C9 (amended): the SET of emitted files is determined by the catalog —
    any two hash-map iteration orders yield permutations of the same file
    list — and the MySQL and SQLite table queries do carry a stable ORDER
    BY (creation time, storage page); but the Postgres table query contains
    no ORDER BY at all, and the per-run emission sequence follows the
    unspecified hash-map order. -/
theorem emission_set_deterministic_queries_ordered
    (path : String) (tables : List Table) (columns : List Column)
    (o₁ o₂ : List String)
    (h₁ : o₁.Perm (tableMapKeys tables))
    (h₂ : o₂.Perm (tableMapKeys tables)) :
    ((generatorEmit path tables columns o₁).snd).Perm
      ((generatorEmit path tables columns o₂).snd) ∧
    (∀ f, ∃ p, mysqlTablesSql f = p ++ "ORDER BY CREATE_TIME;") ∧
    (∀ f, ∃ p, sqliteTablesSql f = p ++ "ORDER by rootpage;") ∧
    strContains (pgTablesSql "test" ["users", "orders"]) "ORDER" = false := by
  refine ⟨?_, fun f => ⟨_, rfl⟩, fun f => ⟨_, rfl⟩, by decide⟩
  unfold generatorEmit
  by_cases ht : tables.isEmpty <;> by_cases hc : columns.isEmpty <;>
    simp [ht, hc]
  all_goals
    exact ((h₁.trans h₂.symm).map _).append (List.Perm.refl _)

/-- C9 (witness): the two emission sequences of the counterexample are
    permutations of one another. -/
theorem emission_set_deterministic_queries_ordered_witness :
    ((generatorEmit "models/" demoT2 demoC2 ["a", "b"]).snd).Perm
      ((generatorEmit "models/" demoT2 demoC2 ["b", "a"]).snd) :=
  (emission_set_deterministic_queries_ordered "models/" demoT2 demoC2
    ["a", "b"] ["b", "a"]
    (by rw [show tableMapKeys demoT2 = ["a", "b"] from by decide])
    (by rw [show tableMapKeys demoT2 = ["a", "b"] from by decide]
        exact List.Perm.swap "a" "b" [])).1

/-- C10: the MySQL row conversion fails (panics) exactly when the raw row's
    `column_name` is absent, and the SQLite row conversion fails exactly
    when the column name or the declared type text is absent; on all other
    inputs both conversions produce a normalized column. -/
theorem row_conversion_partiality :
    (∀ c : MysqlTableColumn, mysqlColumnFrom c = none ↔ c.column_name = none) ∧
    (∀ col : SqliteTableColumn,
      sqliteColumnFromRef col = none ↔ (col.name = none ∨ col.type = none)) := by
  constructor
  · intro c; cases h : c.column_name <;> simp [mysqlColumnFrom, h]
  · intro col
    cases ht : col.type <;> cases hn : col.name <;>
      simp [sqliteColumnFromRef, ht, hn]

/-- C10 (witness): a MySQL row without a column name and a SQLite row
    without a declared type are exactly the panicking inputs. -/
theorem row_conversion_partiality_witness :
    mysqlColumnFrom { column_name := none } = none ∧
    sqliteColumnFromRef { name := some "x", type := none } = none :=
  ⟨(row_conversion_partiality.1 { column_name := none }).mpr rfl,
   (row_conversion_partiality.2 { name := some "x", type := none }).mpr
     (Or.inr rfl)⟩

end SqlxDbCli
